import Mathlib

/-!
Verification development for the `umlaut` keyboard-remapping daemon
(`umlaut_daemon.py`, helpers in `umlaut_paths.py`).

The Python source is shallowly embedded: key codes are the numeric evdev
codes, JSON documents are a `JValue` inductive, Python dicts are ordered
association lists, the in-place mutation of `UmlautConfig` / `UmlautDaemon`
is explicit state passing, and a raised exception is an `Option PyExc`
travelling with the mutated state (`SystemExit`, raised by `_fatal_error`,
is distinguished from ordinary `Exception`s because `except Exception`
does not catch it).  Events written to the virtual uinput device are
collected in a `List VOut` trace.
-/

namespace Umlaut

/-! ## Key code constants (evdev numbering) -/

def KEY_ESC : Nat := 1
def KEY_BACKSPACE : Nat := 14
def KEY_TAB : Nat := 15
def KEY_ENTER : Nat := 28
def KEY_LEFTCTRL : Nat := 29
def KEY_A : Nat := 30
def KEY_SEMICOLON : Nat := 39
def KEY_APOSTROPHE : Nat := 40
def KEY_LEFTSHIFT : Nat := 42
def KEY_COMMA : Nat := 51
def KEY_RIGHTSHIFT : Nat := 54
def KEY_LEFTALT : Nat := 56
def KEY_SPACE : Nat := 57
def KEY_RIGHTCTRL : Nat := 97
def KEY_RIGHTALT : Nat := 100
def KEY_LEFTMETA : Nat := 125
def KEY_RIGHTMETA : Nat := 126
def EV_SYN : Nat := 0
def EV_KEY : Nat := 1

/-- The evdev name table, as far as this development needs it: the model of
`getattr(evdev.ecodes, name)` in `_key_name_to_code`.  Names outside the
table behave like unknown attributes (→ `ValueError`). -/
def ecodesTable : List (String × Nat) :=
  [("KEY_ESC", 1),
   ("KEY_1", 2), ("KEY_2", 3), ("KEY_3", 4), ("KEY_4", 5), ("KEY_5", 6),
   ("KEY_6", 7), ("KEY_7", 8), ("KEY_8", 9), ("KEY_9", 10), ("KEY_0", 11),
   ("KEY_MINUS", 12), ("KEY_EQUAL", 13), ("KEY_BACKSPACE", 14), ("KEY_TAB", 15),
   ("KEY_Q", 16), ("KEY_W", 17), ("KEY_E", 18), ("KEY_R", 19), ("KEY_T", 20),
   ("KEY_Y", 21), ("KEY_U", 22), ("KEY_I", 23), ("KEY_O", 24), ("KEY_P", 25),
   ("KEY_LEFTBRACE", 26), ("KEY_RIGHTBRACE", 27), ("KEY_ENTER", 28),
   ("KEY_LEFTCTRL", 29),
   ("KEY_A", 30), ("KEY_S", 31), ("KEY_D", 32), ("KEY_F", 33), ("KEY_G", 34),
   ("KEY_H", 35), ("KEY_J", 36), ("KEY_K", 37), ("KEY_L", 38),
   ("KEY_SEMICOLON", 39), ("KEY_APOSTROPHE", 40), ("KEY_GRAVE", 41),
   ("KEY_LEFTSHIFT", 42), ("KEY_BACKSLASH", 43),
   ("KEY_Z", 44), ("KEY_X", 45), ("KEY_C", 46), ("KEY_V", 47), ("KEY_B", 48),
   ("KEY_N", 49), ("KEY_M", 50), ("KEY_COMMA", 51), ("KEY_DOT", 52),
   ("KEY_SLASH", 53), ("KEY_RIGHTSHIFT", 54), ("KEY_LEFTALT", 56),
   ("KEY_SPACE", 57), ("KEY_RIGHTCTRL", 97), ("KEY_RIGHTALT", 100),
   ("KEY_LEFTMETA", 125), ("KEY_RIGHTMETA", 126)]

/-- `UmlautConfig.CHAR_TO_KEY`: unshifted printable character → key code. -/
def CHAR_TO_KEY (c : Char) : Option Nat :=
  match c with
  | 'a' => some 30 | 'b' => some 48 | 'c' => some 46 | 'd' => some 32
  | 'e' => some 18 | 'f' => some 33 | 'g' => some 34 | 'h' => some 35
  | 'i' => some 23 | 'j' => some 36 | 'k' => some 37 | 'l' => some 38
  | 'm' => some 50 | 'n' => some 49 | 'o' => some 24 | 'p' => some 25
  | 'q' => some 16 | 'r' => some 19 | 's' => some 31 | 't' => some 20
  | 'u' => some 22 | 'v' => some 47 | 'w' => some 17 | 'x' => some 45
  | 'y' => some 21 | 'z' => some 44
  | '0' => some 11 | '1' => some 2 | '2' => some 3 | '3' => some 4
  | '4' => some 5 | '5' => some 6 | '6' => some 7 | '7' => some 8
  | '8' => some 9 | '9' => some 10
  | ' ' => some 57 | '-' => some 12 | '=' => some 13
  | '[' => some 26 | ']' => some 27 | '\\' => some 43
  | ';' => some 39 | '\'' => some 40 | '`' => some 41
  | ',' => some 51 | '.' => some 52 | '/' => some 53
  | _ => none

/-- `UmlautConfig.SHIFTED_CHARS`: shifted character → (base character, needs shift). -/
def SHIFTED_CHARS (c : Char) : Option (Char × Bool) :=
  match c with
  | 'A' => some ('a', true) | 'B' => some ('b', true) | 'C' => some ('c', true)
  | 'D' => some ('d', true) | 'E' => some ('e', true) | 'F' => some ('f', true)
  | 'G' => some ('g', true) | 'H' => some ('h', true) | 'I' => some ('i', true)
  | 'J' => some ('j', true) | 'K' => some ('k', true) | 'L' => some ('l', true)
  | 'M' => some ('m', true) | 'N' => some ('n', true) | 'O' => some ('o', true)
  | 'P' => some ('p', true) | 'Q' => some ('q', true) | 'R' => some ('r', true)
  | 'S' => some ('s', true) | 'T' => some ('t', true) | 'U' => some ('u', true)
  | 'V' => some ('v', true) | 'W' => some ('w', true) | 'X' => some ('x', true)
  | 'Y' => some ('y', true) | 'Z' => some ('z', true)
  | '!' => some ('1', true) | '@' => some ('2', true) | '#' => some ('3', true)
  | '$' => some ('4', true) | '%' => some ('5', true) | '^' => some ('6', true)
  | '&' => some ('7', true) | '*' => some ('8', true) | '(' => some ('9', true)
  | ')' => some ('0', true)
  | '_' => some ('-', true) | '+' => some ('=', true) | '{' => some ('[', true)
  | '}' => some (']', true) | '|' => some ('\\', true) | ':' => some (';', true)
  | '"' => some ('\'', true) | '~' => some ('`', true)
  | '<' => some (',', true) | '>' => some ('.', true) | '?' => some ('/', true)
  | _ => none

/-! ## JSON values and Python exceptions -/

/-- Parsed JSON documents (numbers restricted to naturals: the config files
this daemon consumes carry key codes and timeouts only). -/
inductive JValue where
  | str (s : String)
  | num (n : Nat)
  | list (xs : List JValue)
  | obj (fields : List (String × JValue))

/-- Raised Python exceptions, as the daemon's handlers distinguish them:
`except ValueError` catches only `valueError`; `except Exception` catches
`valueError` and `otherExc`; `SystemExit` (from `_fatal_error`) escapes both. -/
inductive PyExc where
  | valueError
  | otherExc
  | systemExit
deriving DecidableEq, Repr, Inhabited

/-! ### Code-point string primitives

Python strings are sequences of code points, so the model works on
`String.data` with structural recursion (this also keeps every definition
kernel-reducible, which the concrete evaluations below rely on). -/

/-- Does `l` start with `pat`? -/
def charsStart : List Char → List Char → Bool
  | _, [] => true
  | [], _ :: _ => false
  | c :: cs, p :: ps => c == p && charsStart cs ps

/-- Python `s.startswith(pre)`. -/
def strStarts (s pre : String) : Bool := charsStart s.data pre.data

/-- Does `pat` occur inside `l`? -/
def hasSub : List Char → List Char → Bool
  | [], pat => charsStart [] pat
  | c :: cs, pat => charsStart (c :: cs) pat || hasSub cs pat

/-- Python `pat in s` substring test. -/
def strHasSub (s pat : String) : Bool := hasSub s.data pat.data

/-- Python `s.upper()` as used on key names and config identifiers: ASCII
upper-casing (exact on the ASCII identifiers the loader handles). -/
def strUpper (s : String) : String := String.mk (s.data.map Char.toUpper)

/-- Python `s[n:]` (by code points). -/
def strDropn (s : String) (n : Nat) : String := String.mk (s.data.drop n)

/-- Whitespace trimming helper for `strStrip`. -/
def dropWS (l : List Char) : List Char :=
  l.dropWhile (fun c => c == ' ' || c == '\t' || c == '\n' || c == '\r')

/-- Python `s.strip()`. -/
def strStrip (s : String) : String :=
  String.mk ((dropWS s.data).reverse |> dropWS |>.reverse)

/-- Split a character list on a separator (Python `str.split(sep)`). -/
def splitChar (sep : Char) : List Char → List (List Char)
  | [] => [[]]
  | x :: xs =>
      match splitChar sep xs with
      | [] => [[]]
      | g :: gs => if x == sep then [] :: g :: gs else (x :: g) :: gs

/-- Python `s.split('+')`. -/
def strSplitPlus (s : String) : List String := (splitChar '+' s.data).map String.mk

/-- Decimal digits to a natural number (Python `int` on a digit string). -/
def digitsToNat (l : List Char) : Nat := l.foldl (fun acc c => acc * 10 + (c.toNat - 48)) 0

/-- Lookup in a JSON object (`dict.get`): first binding of the key. -/
def objGet (fields : List (String × JValue)) (k : String) : Option JValue :=
  (fields.find? (fun p => p.1 == k)).map (·.2)

/-- Python truthiness of an optional JSON value (`if x:` after `dict.get`). -/
def jTruthy : Option JValue → Bool
  | none => false
  | some (.str s) => !s.data.isEmpty
  | some (.num n) => n != 0
  | some (.list xs) => !xs.isEmpty
  | some (.obj fields) => !fields.isEmpty

/-- Model of Python `int(x)` on JSON values as used for `timeout_ms`:
numbers pass through, digit strings parse, everything else raises
(`ValueError`/`TypeError`, both caught at the call site → `none`). -/
def pyToInt : JValue → Option Nat
  | .num n => some n
  | .str s =>
      let t := strStrip s
      if !t.data.isEmpty && t.data.all Char.isDigit then some (digitsToNat t.data) else none
  | _ => none

/-! ## Output actions and sequence parsing (`UmlautConfig`) -/

/-- `OutputAction`: the daemon's tagged output variant.  `action_type='key'`
carries either a bare key code or a `{key, modifiers}` record. -/
inductive OutputAction where
  | string (s : String)
  | key (kc : Nat)
  | keyCombo (kc : Nat) (modifiers : List Nat)
  | sequence (actions : List OutputAction)

/-- `KeySequence` dataclass. -/
structure KeySequence where
  modifier_keys : List Nat
  compose_key : Nat
  compose_shifted : Bool
  target_keys : List Nat
  output : OutputAction

/-- Lookup-tuple of the compiled table: `(trigger, compose_shifted, compose, targets…)`. -/
abbrev SeqKey := Nat × Bool × Nat × List Nat

/-- `UmlautConfig._key_name_to_code` on a string: add missing `KEY_` prefix
(upper-casing), then look up the evdev name (unknown → `ValueError`). -/
def key_name_to_code (s : String) : Except PyExc Nat :=
  let name := if strStarts s "KEY_" then s else "KEY_" ++ strUpper s
  match (ecodesTable.find? (fun p => p.1 == name)).map (·.2) with
  | some k => .ok k
  | none => .error .valueError

/-- `UmlautConfig._char_or_key_to_code`. -/
def char_or_key_to_code (t : String) : Except PyExc Nat :=
  let tu := strUpper t
  if tu == "CTRL" then .ok KEY_LEFTCTRL
  else if tu == "ALT" then .ok KEY_LEFTALT
  else if tu == "ALTGR" then .ok KEY_RIGHTALT
  else if tu == "SHIFT" then .ok KEY_LEFTSHIFT
  else if tu == "META" || tu == "SUPER" then .ok KEY_LEFTMETA
  else
    match t.data with
    | [ch] =>
        match CHAR_TO_KEY ch with
        | some k => .ok k
        | none => key_name_to_code t
    | _ => key_name_to_code t

/-- `UmlautConfig._parse_target_key`: parse `'a'`, `'A'`, `'$'`, `'CTRL+o'`,
`'KEY_ENTER'` into a key-code list. -/
def parse_target_key (target : String) : Except PyExc (List Nat) :=
  if target.data.contains '+' &&
     (strHasSub (strUpper target) "CTRL" || strHasSub (strUpper target) "ALT" ||
      strHasSub (strUpper target) "SHIFT" || strHasSub (strUpper target) "META") then
    (strSplitPlus target).foldlM
      (fun acc part => do
        let kc ← char_or_key_to_code (strStrip part)
        pure (acc ++ [kc]))
      []
  else
    match target.data with
    | [ch] =>
        match SHIFTED_CHARS ch with
        | some (base, _) => .ok [KEY_LEFTSHIFT, (CHAR_TO_KEY base).getD 0]
        | none =>
            match CHAR_TO_KEY ch with
            | some k => .ok [k]
            | none => .error .valueError
    | _ => (key_name_to_code target).map (fun k => [k])

/-- `UmlautConfig._key_name_to_code` applied to a JSON field value (the
`isinstance(key_name, int)` branch returns the integer unchanged). -/
def key_name_to_code_j : JValue → Except PyExc Nat
  | .num n => .ok n
  | .str s => key_name_to_code s
  | _ => .error .otherExc

/-- Elements iterated for the `modifiers` field of a `{key, modifiers}` output
(Python iterates lists element-wise and strings character-wise). -/
def modifiersItems : Option JValue → Except PyExc (List JValue)
  | none => .ok []
  | some (.list xs) => .ok xs
  | some (.str s) => .ok (s.data.map (fun ch => JValue.str (String.mk [ch])))
  | some _ => .error .otherExc

mutual

/-- `UmlautConfig._parse_output`: plain string (length-checked against
10,000), list (length-checked against 10 elements; `KEY_` strings become key
actions, other strings become string actions, dicts recurse, anything else is
silently skipped), or dict with a `key` or `string` field. -/
def parse_output : JValue → Except PyExc OutputAction
  | .str s =>
      if s.length > 10000 then .error .valueError
      else .ok (.string s)
  | .list xs =>
      if xs.length > 10 then .error .valueError
      else do
        let actions ← parse_output_items xs
        pure (.sequence actions)
  | .obj fields =>
      match objGet fields "key" with
      | some kv => do
          let kc ← key_name_to_code_j kv
          let mitems ← modifiersItems (objGet fields "modifiers")
          let mods ← mitems.mapM key_name_to_code_j
          pure (.keyCombo kc mods)
      | none =>
          match objGet fields "string" with
          | some (.str s) => .ok (.string s)
          | some _ => .error .otherExc
          | none => .error .valueError
  | .num _ => .error .valueError

/-- The element loop inside `_parse_output`'s list branch: strings and dicts
are parsed left to right, other element types are silently skipped. -/
def parse_output_items : List JValue → Except PyExc (List OutputAction)
  | [] => .ok []
  | item :: rest => do
      let head : List OutputAction ←
        match item with
        | .str s =>
            if strStarts s "KEY_" then do
              let kc ← key_name_to_code s
              pure [.key kc]
            else pure [.string s]
        | .obj fields => do
            let a ← parse_output (.obj fields)
            pure [a]
        | _ => pure []
      let tail ← parse_output_items rest
      pure (head ++ tail)

end

/-! ## Configuration object and on-disk input -/

/-- The mutable fields of `UmlautConfig` (the two static char tables are the
top-level functions above).  `sequences` is the Python dict as an ordered
association list. -/
structure UmlautConfig where
  sequences : List (SeqKey × KeySequence)
  trigger_keys_list : List Nat
  passthrough_keys : List Nat
  timeout_ms : Nat
  log_level : String

/-- `UmlautConfig.__init__` field defaults (before `load_config` runs). -/
def initialConfig : UmlautConfig :=
  { sequences := [], trigger_keys_list := [], passthrough_keys := [],
    timeout_ms := 1000, log_level := "INFO" }

/-- Result of opening and JSON-parsing one file. -/
inductive FileRead where
  | missing
  | badJson
  | content (j : JValue)

/-- The on-disk inputs `load_config` consumes: the settings file and, per
enabled stem, the root JSON of `<stem>.config.json` (`none` = unreadable or
invalid JSON, handed to `load_sequence_config` as its failure case). -/
structure Disk where
  settings : FileRead
  seqFiles : List (String × Option JValue)

/-- Python dict assignment on the sequence table: replace an existing key in
place, else append. -/
def dictInsert (m : List (SeqKey × KeySequence)) (k : SeqKey) (v : KeySequence) :
    List (SeqKey × KeySequence) :=
  if (m.find? (fun p => p.1 == k)).isSome then
    m.map (fun p => if p.1 == k then (k, v) else p)
  else m ++ [(k, v)]

/-! ## `umlaut_paths.load_sequence_config` (schema cleaning) -/

/-- The cleaning pass of `umlaut_paths.load_sequence_config`, restricted to the
`sequences` member (the only one the daemon consumes): non-object roots are
rejected, a non-dict `sequences` value resets to empty, target groups keep only
string-valued outputs and are dropped when that leaves them empty, and aliases
are appended afterwards when their reference names a kept entry. -/
def load_sequence_config (fc : Option JValue) : Option (List (String × JValue)) :=
  match fc with
  | none => none
  | some j =>
      match j with
      | .obj fields =>
          match (objGet fields "sequences").getD (.obj []) with
          | .obj entries =>
              let pass1 := entries.foldl
                (fun (acc : List (String × JValue) × List (String × String)) ent =>
                  match ent.2 with
                  | .str ref => (acc.1, acc.2 ++ [(ent.1, ref)])
                  | .obj tgts =>
                      let ct := tgts.filter (fun t =>
                        match t.2 with | .str _ => true | _ => false)
                      if ct.isEmpty then acc else (acc.1 ++ [(ent.1, .obj ct)], acc.2)
                  | _ => acc)
                ([], [])
              let withAliases := pass1.2.foldl
                (fun cs al =>
                  if (cs.find? (fun p => p.1 == al.2)).isSome then
                    cs ++ [(al.1, JValue.str al.2)]
                  else cs)
                pass1.1
              some withAliases
          | _ => some []
      | _ => none

/-! ## `UmlautConfig` loading -/

/-- `UmlautDaemon._load_sequence_file`: compile one cleaned compose-key entry.
Aliases are resolved one level (an alias whose resolution is not a dict is
skipped); a `SHIFT+` prefix on the compose name sets `compose_shifted`;
`ValueError` from target or output parsing skips that unit. -/
def compile_one (c : UmlautConfig) (cleaned : List (String × JValue))
    (ck : String) (tv : JValue) : UmlautConfig :=
  let tv : JValue := match tv with
    | .str ref =>
        ((cleaned.find? (fun (p : String × JValue) => p.1 == ref)).map (·.2)).getD (.num 0)
    | _ => tv
  match tv with
  | .obj targets =>
      let sh := strStarts (strUpper ck) "SHIFT+"
      let ckName := if sh then strDropn ck 6 else ck
      match parse_target_key ckName with
      | .error _ => c
      | .ok ckeys =>
          let ckc := ckeys.headD 0
          targets.foldl
            (fun (c : UmlautConfig) (t : String × JValue) =>
              match parse_target_key t.1, parse_output t.2 with
              | .ok tks, .ok oa =>
                  c.trigger_keys_list.foldl
                    (fun c mk =>
                      let ks : KeySequence :=
                        { modifier_keys := [mk], compose_key := ckc,
                          compose_shifted := sh, target_keys := tks, output := oa }
                      { c with sequences := dictInsert c.sequences (mk, sh, ckc, tks) ks })
                    c
              | _, _ => c)
            c
  | _ => c

/-- `UmlautDaemon._load_sequence_file`: clean via `load_sequence_config`, then
compile every entry in order.  Exceptions cannot escape this path (cleaned
outputs are strings, so parsing raises only `ValueError`, caught per unit). -/
def load_sequence_file (c : UmlautConfig) (fc : Option JValue) : UmlautConfig :=
  match load_sequence_config fc with
  | none => c
  | some cleaned =>
      if cleaned.isEmpty then c
      else cleaned.foldl (fun c ent => compile_one c cleaned ent.1 ent.2) c

/-- The trigger-key loop of `_load_single_config`: each name is resolved with
`_key_name_to_code`; an unknown name is fatal for the system config
(`SystemExit`); integers pass through; other element types raise an ordinary
exception from `str.startswith`. -/
def addTriggers (c : UmlautConfig) (items : List JValue) : UmlautConfig × Option PyExc :=
  items.foldl
    (fun acc item =>
      match acc.2 with
      | some _ => acc
      | none =>
          match item with
          | .str s =>
              match key_name_to_code s with
              | .ok k =>
                  ({ acc.1 with trigger_keys_list := acc.1.trigger_keys_list ++ [k] }, none)
              | .error _ => (acc.1, some .systemExit)
          | .num n =>
              ({ acc.1 with trigger_keys_list := acc.1.trigger_keys_list ++ [n] }, none)
          | _ => (acc.1, some .otherExc))
    (c, none)

/-- The passthrough-key loop of `_load_single_config`: each entry parses via
`_parse_target_key` and keeps the first key code; `ValueError` skips the
entry with a warning, non-string entries raise an ordinary exception. -/
def addPassthrough (c : UmlautConfig) (items : List JValue) : UmlautConfig × Option PyExc :=
  items.foldl
    (fun acc item =>
      match acc.2 with
      | some _ => acc
      | none =>
          match item with
          | .str s =>
              match parse_target_key s with
              | .ok ks =>
                  ({ acc.1 with passthrough_keys := acc.1.passthrough_keys ++ [ks.headD 0] },
                   none)
              | .error _ => acc
          | _ => (acc.1, some .otherExc))
    (c, none)

/-- The elements Python would iterate for a truthy `trigger_key` /
`passthrough_keys` / `enabled_sequences` value: a string becomes its list of
one-character strings, a list its members, a dict its keys; iterating a
number raises `TypeError`. -/
def iterItems : JValue → Except PyExc (List JValue)
  | .list xs => .ok xs
  | .str s => .ok (s.data.map (fun ch => JValue.str (String.mk [ch])))
  | .obj fields => .ok (fields.map (fun p => JValue.str p.1))
  | .num _ => .error .otherExc

/-- The `settings` section of `_load_single_config`: `timeout_ms` is accepted
only inside [100, 10000] (conversion errors keep the default with a warning);
`log_level` must be a string or `.upper()` raises an ordinary exception. -/
def applySettings (c : UmlautConfig) (sv : JValue) : UmlautConfig × Option PyExc :=
  match sv with
  | .obj fields =>
      let c :=
        match objGet fields "timeout_ms" with
        | none => c
        | some v =>
            match pyToInt v with
            | some n => if 100 ≤ n ∧ n ≤ 10000 then { c with timeout_ms := n } else c
            | none => c
      match objGet fields "log_level" with
      | none => (c, none)
      | some (.str s) => ({ c with log_level := strUpper s }, none)
      | some _ => (c, some .otherExc)
  | _ => (c, none)

/-- `_load_single_config(settings_path, is_system=True, sequences_allowed=False)`:
missing or unparsable settings file is fatal (`SystemExit` via `_fatal_error`);
a non-object root returns without effect; then the `trigger_key`,
`passthrough_keys` and `settings` sections run in order.  The mutated config
is returned alongside any raised exception. -/
def load_settings_file (c : UmlautConfig) (d : Disk) : UmlautConfig × Option PyExc :=
  match d.settings with
  | .missing => (c, some .systemExit)
  | .badJson => (c, some .systemExit)
  | .content j =>
      match j with
      | .obj fields =>
          let tk := objGet fields "trigger_key"
          let step1 : UmlautConfig × Option PyExc :=
            if jTruthy tk then
              let items := match tk with
                | some (.str s) => Except.ok [JValue.str s]
                | some v => iterItems v
                | none => Except.ok []
              match items with
              | .error e => (c, some e)
              | .ok its => addTriggers { c with trigger_keys_list := [] } its
            else (c, none)
          match step1 with
          | (c, some e) => (c, some e)
          | (c, none) =>
              let pt := objGet fields "passthrough_keys"
              let step2 : UmlautConfig × Option PyExc :=
                if jTruthy pt then
                  match iterItems (pt.getD (.list [])) with
                  | .error e => (c, some e)
                  | .ok its => addPassthrough { c with passthrough_keys := [] } its
                else (c, none)
              match step2 with
              | (c, some e) => (c, some e)
              | (c, none) =>
                  let sv := (objGet fields "settings").getD (.obj [])
                  if jTruthy (some sv) then applySettings c sv else (c, none)
      | _ => (c, none)

/-- `UmlautConfig._load_enabled_configs`: re-read the settings file (failures
return without effect), take `enabled_sequences`, and load each named stem via
`load_sequence_config` + the sequence compiler; per-file exceptions are caught
and logged. -/
def load_enabled_configs (c : UmlautConfig) (d : Disk) : UmlautConfig × Option PyExc :=
  match d.settings with
  | .missing => (c, none)
  | .badJson => (c, none)
  | .content j =>
      let enabled : Except PyExc (List JValue) :=
        match j with
        | .obj fields =>
            match objGet fields "enabled_sequences" with
            | none => .ok []
            | some v => if jTruthy (some v) then iterItems v else .ok []
        | _ => .ok []
      match enabled with
      | .error e => (c, some e)
      | .ok names =>
          let c := names.foldl
            (fun c nm =>
              match nm with
              | .str stem =>
                  match (d.seqFiles.find? (fun p => p.1 == stem)).map (·.2) with
                  | none => c
                  | some fc => load_sequence_file c fc
              | _ => c)
            c
          (c, none)

/-- `UmlautConfig.load_config`: clear the previous tables *in place*, load the
settings file, load the enabled sequence files, then the two fatal
validations (`SystemExit` when no trigger key or no sequence survives). -/
def load_config (c : UmlautConfig) (d : Disk) : UmlautConfig × Option PyExc :=
  let c := { c with sequences := [], trigger_keys_list := [], passthrough_keys := [] }
  match load_settings_file c d with
  | (c, some e) => (c, some e)
  | (c, none) =>
      match load_enabled_configs c d with
      | (c, some e) => (c, some e)
      | (c, none) =>
          if c.trigger_keys_list.isEmpty then (c, some .systemExit)
          else if c.sequences.isEmpty then (c, some .systemExit)
          else (c, none)

/-! ## Virtual-device output and the daemon state -/

/-- One observable output of the daemon: a `uinput.write(etype, code, value)`,
a `uinput.syn()` mark, or one `xdotool` child-process invocation
(`keydown shift` / `type --` / `keyup shift`). -/
inductive VOut where
  | write (etype code value : Nat)
  | syn
  | xdoShiftDown
  | xdoType (c : Char)
  | xdoShiftUp
deriving DecidableEq, Repr

/-- State-machine states. -/
inductive SMState where
  | IDLE
  | TRIGGER_PRESSED
  | COMPOSE_PRESSED
  | WAITING_TARGET
deriving DecidableEq, Repr, Inhabited

/-- The mutable fields of `UmlautDaemon` that the event logic touches.
Times are in milliseconds (`time.time()` scaled); `timeout_ms` is the copy
the daemon takes in `__init__` (it is *not* refreshed on reload). -/
structure Daemon where
  config : UmlautConfig
  timeout_ms : Nat
  valid_compose_keys : List Nat
  xdotool_available : Bool
  state : SMState
  pressed_keys : List Nat
  current_trigger : Option Nat
  current_compose : Option Nat
  compose_shifted : Bool
  compose_start_time : Nat
  trigger_start_time : Nat

/-- `pressed_keys.add` (set semantics). -/
def setAdd (s : List Nat) (k : Nat) : List Nat := if k ∈ s then s else k :: s

/-- `pressed_keys.discard` (set semantics). -/
def setDiscard (s : List Nat) (k : Nat) : List Nat := s.filter (fun x => x ≠ k)

/-- Python truthiness of `self.current_trigger` / `self.current_compose`
(`None` and `0` are falsy). -/
def optTruthy : Option Nat → Bool
  | none => false
  | some n => n != 0

/-- Membership of an optional key in `pressed_keys` (`None in set_of_ints`
is `False`). -/
def optMem : Option Nat → List Nat → Prop
  | none, _ => False
  | some k, s => k ∈ s

instance : ∀ (o : Option Nat) (s : List Nat), Decidable (optMem o s) := by
  intro o s
  cases o <;> simp [optMem] <;> infer_instance

/-- An unguarded `uinput.write(EV_KEY, k, v)` + `syn()` on an optional key
code.  The source writes the raw field; `none` (which would raise in Python)
does not occur in the states that reach these writes — see the IDLE-reset
invariant below. -/
def wOpt (o : Option Nat) (v : Nat) : List VOut :=
  match o with
  | some k => [.write EV_KEY k v, .syn]
  | none => []

/-- `UmlautDaemon.cancel_compose`. -/
def cancel_compose (dm : Daemon) : Daemon :=
  { dm with state := .IDLE, current_trigger := none, current_compose := none,
            compose_shifted := false, compose_start_time := 0, trigger_start_time := 0 }

/-- `UmlautDaemon.force_release_all`: release the current trigger and compose
keys when set (Python truthiness), then both Shift keys, then `cancel_compose`. -/
def force_release_all (dm : Daemon) : Daemon × List VOut :=
  let tr :=
    (if optTruthy dm.current_trigger then wOpt dm.current_trigger 0 else []) ++
    (if optTruthy dm.current_compose then wOpt dm.current_compose 0 else []) ++
    [.write EV_KEY KEY_LEFTSHIFT 0, .syn, .write EV_KEY KEY_RIGHTSHIFT 0, .syn]
  (cancel_compose dm, tr)

/-- `UmlautDaemon.check_timeout` at wall time `now` (ms). -/
def check_timeout (dm : Daemon) (now : Nat) : Daemon × List VOut :=
  match dm.state with
  | .TRIGGER_PRESSED =>
      if now - dm.trigger_start_time ≥ dm.timeout_ms then
        (cancel_compose dm, wOpt dm.current_trigger 1 ++ wOpt dm.current_trigger 0)
      else (dm, [])
  | .WAITING_TARGET =>
      if now - dm.compose_start_time ≥ dm.timeout_ms then
        (cancel_compose dm,
         wOpt dm.current_trigger 1 ++ wOpt dm.current_trigger 0 ++
         (if dm.compose_shifted then [.write EV_KEY KEY_LEFTSHIFT 1, .syn] else []) ++
         wOpt dm.current_compose 1 ++ wOpt dm.current_compose 0 ++
         (if dm.compose_shifted then [.write EV_KEY KEY_LEFTSHIFT 0, .syn] else []))
      else (dm, [])
  | _ => (dm, [])

/-! ## Output synthesis (`emit_key`, `emit_string`, `emit_output`) -/

/-- Model of CPython `str.upper()` per code point: exact on ASCII and on the
non-ASCII letters this development evaluates (`ä ö ü` upper-case to `Ä Ö Ü`,
`ß` expands to `SS`); code points outside that domain map to themselves. -/
def pyCharUpper (c : Char) : List Char :=
  if c.toNat ≤ 127 then [c.toUpper]
  else if c = 'ä' then ['Ä']
  else if c = 'ö' then ['Ö']
  else if c = 'ü' then ['Ü']
  else if c = 'ß' then ['S', 'S']
  else [c]

/-- CPython `str.upper()` on a whole string. -/
def pyStrUpper (s : String) : String := String.mk (List.flatten (s.data.map pyCharUpper))

/-- Model of CPython `str.isupper()` for single characters of our domain. -/
def pyIsUpper (c : Char) : Bool :=
  (('A' ≤ c && c ≤ 'Z') || c = 'Ä' || c = 'Ö' || c = 'Ü')

/-- The `text` that `emit_output` hands to `emit_string` for a
`action_type == 'string'` action (source: `text = output.data` followed by
`text = text.upper()` when the target was shifted). -/
def emit_output_text (data : String) (target_was_shifted : Bool) : String :=
  if target_was_shifted then pyStrUpper data else data

/-- `UmlautDaemon.emit_key`: press the modifiers, write the key event, and on
a release (`value == 0`) release the modifiers in the same order. -/
def emit_key_trace (kc value : Nat) (modifiers : List Nat) : List VOut :=
  (List.flatten (modifiers.map (fun m => [VOut.write EV_KEY m 1, VOut.syn]))) ++
  [.write EV_KEY kc value, .syn] ++
  (if value = 0 then
    List.flatten (modifiers.map (fun m => [VOut.write EV_KEY m 0, VOut.syn]))
   else [])

/-- `UmlautDaemon.emit_unicode_char`: skipped when `xdotool` is unavailable;
otherwise one `xdotool type` invocation, wrapped in Shift down/up for
upper-case characters. -/
def emit_unicode_char_trace (avail : Bool) (c : Char) : List VOut :=
  if !avail then []
  else if pyIsUpper c then [.xdoShiftDown, .xdoType c, .xdoShiftUp]
  else [.xdoType c]

/-- `UmlautDaemon.emit_string`: ASCII characters found in the char tables are
typed as direct key events with a Shift wrap when required; everything else
goes through the `xdotool` path. -/
def emit_string_trace (avail : Bool) (text : String) : List VOut :=
  List.flatten (text.data.map (fun c =>
    if c.toNat ≤ 127 && ((CHAR_TO_KEY c).isSome || (SHIFTED_CHARS c).isSome) then
      let bc := match SHIFTED_CHARS c with
        | some (base, needs) => (base, needs)
        | none => (c, false)
      match CHAR_TO_KEY bc.1 with
      | some kc =>
          (if bc.2 then [VOut.write EV_KEY KEY_LEFTSHIFT 1, VOut.syn] else []) ++
          [VOut.write EV_KEY kc 1, VOut.syn, VOut.write EV_KEY kc 0, VOut.syn] ++
          (if bc.2 then [VOut.write EV_KEY KEY_LEFTSHIFT 0, VOut.syn] else [])
      | none => []
    else emit_unicode_char_trace avail c))

mutual

/-- `UmlautDaemon.emit_output`: dispatch on the action type, with the shift
propagation rules (strings upper-case, key combos gain LeftShift when no
Shift modifier is present, sequences propagate the flag to the first element
only). -/
def emit_output_trace (avail : Bool) : OutputAction → Bool → List VOut
  | .string s, sh => emit_string_trace avail (emit_output_text s sh)
  | .keyCombo kc mods, sh =>
      let mods :=
        if sh ∧ ¬ (mods.any (fun m => m = KEY_LEFTSHIFT ∨ m = KEY_RIGHTSHIFT)) then
          mods ++ [KEY_LEFTSHIFT]
        else mods
      emit_key_trace kc 1 mods ++ emit_key_trace kc 0 mods
  | .key kc, sh =>
      let mods := if sh then [KEY_LEFTSHIFT] else []
      emit_key_trace kc 1 mods ++ emit_key_trace kc 0 mods
  | .sequence as, sh => emit_seq_trace avail as sh

/-- The enumerate loop of the `'sequence'` branch: the first element receives
the shift flag, later elements receive `false`. -/
def emit_seq_trace (avail : Bool) : List OutputAction → Bool → List VOut
  | [], _ => []
  | a :: rest, sh => emit_output_trace avail a sh ++ emit_seq_trace avail rest false

end

/-! ## The state machine (`handle_event`) -/

/-- The modifier tuple tested in `COMPOSE_PRESSED` and `WAITING_TARGET`
(both Shift, Ctrl, Alt and Meta keys). -/
def MOD_KEYS_ALL : List Nat := [42, 54, 29, 97, 56, 100, 125, 126]

/-- The modifier tuple tested in `TRIGGER_PRESSED` (Ctrl, Shift, Meta — Alt
is absent because it is the usual trigger). -/
def MOD_KEYS_TRIG : List Nat := [29, 97, 42, 54, 125, 126]

/-- Target-key construction on the first non-modifier press in
`WAITING_TARGET` (source lines 993–1006): start from `[kc]` and `insert(0, ·)`
LeftShift, then LeftCtrl, then LeftAlt (the latter only when `kc` is not a
trigger key) for each physically held modifier class.  Returns the list and
`target_was_shifted`. -/
def build_target_keys (pressed : List Nat) (key_code : Nat) (trigger_keys : List Nat) :
    List Nat × Bool :=
  let target_keys := [key_code]
  let shifted : Bool := decide (KEY_LEFTSHIFT ∈ pressed ∨ KEY_RIGHTSHIFT ∈ pressed)
  let target_keys := if shifted then KEY_LEFTSHIFT :: target_keys else target_keys
  let target_keys :=
    if KEY_LEFTCTRL ∈ pressed ∨ KEY_RIGHTCTRL ∈ pressed then KEY_LEFTCTRL :: target_keys
    else target_keys
  let target_keys :=
    if (KEY_LEFTALT ∈ pressed ∨ KEY_RIGHTALT ∈ pressed) ∧ key_code ∉ trigger_keys then
      KEY_LEFTALT :: target_keys
    else target_keys
  (target_keys, shifted)

/-- Dict lookup in the compiled table against the runtime tuple
`(current_trigger, compose_shifted, current_compose, *target_keys)` — the
stored keys hold integers, the runtime fields are optional. -/
def seq_lookup (m : List (SeqKey × KeySequence)) (trig : Option Nat) (sh : Bool)
    (comp : Option Nat) (targets : List Nat) : Option KeySequence :=
  (m.find? (fun p =>
    some p.1.1 == trig && p.1.2.1 == sh && some p.1.2.2.1 == comp &&
    p.1.2.2.2 == targets)).map (·.2)

/-- The `IDLE` branch of `handle_event` (after `pressed_keys` was updated).
A trigger press with Ctrl/Meta already held is forwarded as a shortcut
(without a syn mark, matching the source); otherwise it opens
`TRIGGER_PRESSED`; everything else falls through to the final pass-through. -/
def handle_idle (dm : Daemon) (code value now : Nat) : Daemon × List VOut :=
  if value = 1 ∧ code ∈ dm.config.trigger_keys_list then
    let other_modifiers := ([KEY_LEFTCTRL, KEY_RIGHTCTRL,
                             KEY_LEFTMETA, KEY_RIGHTMETA].filter (fun k => k ≠ code))
    if other_modifiers.any (fun k => k ∈ dm.pressed_keys) then
      (dm, [.write EV_KEY code value])
    else
      ({ dm with current_trigger := some code, state := .TRIGGER_PRESSED,
                 trigger_start_time := now }, [])
  else (dm, [.write EV_KEY code value, .syn])

/-- The `TRIGGER_PRESSED` branch of `handle_event`. -/
def handle_trigger_pressed (dm : Daemon) (code value : Nat) : Daemon × List VOut :=
  if value = 0 ∧ some code = dm.current_trigger then
    (cancel_compose dm, wOpt dm.current_trigger 1 ++ wOpt dm.current_trigger 0)
  else if value = 1 ∧ code ∈ MOD_KEYS_TRIG ∧ code ∉ dm.config.trigger_keys_list then
    if code = KEY_LEFTSHIFT ∨ code = KEY_RIGHTSHIFT then (dm, [])
    else
      (cancel_compose dm, wOpt dm.current_trigger 1 ++ [.write EV_KEY code value, .syn])
  else if value = 1 ∧ code ∈ dm.config.passthrough_keys then
    (cancel_compose dm, wOpt dm.current_trigger 1 ++ [.write EV_KEY code value, .syn])
  else if value = 1 ∧ some code ≠ dm.current_trigger then
    if code ∉ dm.valid_compose_keys then
      (cancel_compose dm, wOpt dm.current_trigger 1 ++ [.write EV_KEY code value, .syn])
    else
      ({ dm with current_compose := some code,
                 compose_shifted := decide (KEY_LEFTSHIFT ∈ dm.pressed_keys ∨
                                            KEY_RIGHTSHIFT ∈ dm.pressed_keys),
                 state := .COMPOSE_PRESSED }, [])
  else (dm, [.write EV_KEY code value, .syn])

/-- The `COMPOSE_PRESSED` branch of `handle_event`.  The modifier-ignore
block forwards Shift releases but does *not* return, so modifier events that
the release logic leaves unhandled fall through to the final pass-through
write (they are emitted a second time for Shift releases, once for other
modifier events). -/
def handle_compose_pressed (dm : Daemon) (code value now : Nat) : Daemon × List VOut :=
  let memit : List VOut :=
    if code ∈ MOD_KEYS_ALL ∧ value = 0 ∧ (code = KEY_LEFTSHIFT ∨ code = KEY_RIGHTSHIFT) then
      [.write EV_KEY code 0, .syn]
    else []
  if value = 0 ∧ (some code = dm.current_trigger ∨ some code = dm.current_compose) then
    if ¬ optMem dm.current_trigger dm.pressed_keys ∧
       ¬ optMem dm.current_compose dm.pressed_keys then
      ({ dm with state := .WAITING_TARGET, compose_start_time := now }, memit)
    else (dm, memit)
  else (dm, memit ++ [.write EV_KEY code value, .syn])

/-- The replay emission of the `WAITING_TARGET` no-match branch (source lines
1040–1059): trigger press+release, compose press+release wrapped in LeftShift
when `compose_shifted`, then the target press. -/
def replay_trace (dm : Daemon) (code value : Nat) : List VOut :=
  wOpt dm.current_trigger 1 ++ wOpt dm.current_trigger 0 ++
  (if dm.compose_shifted then [.write EV_KEY KEY_LEFTSHIFT 1, .syn] else []) ++
  wOpt dm.current_compose 1 ++ wOpt dm.current_compose 0 ++
  (if dm.compose_shifted then [.write EV_KEY KEY_LEFTSHIFT 0, .syn] else []) ++
  [.write EV_KEY code value, .syn]

/-- The `WAITING_TARGET` branch of `handle_event`: modifier events are
swallowed (Shift releases forwarded), the first non-modifier press does the
table lookup (with an unshifted retry when the target was shifted) and either
synthesizes the output or replays; other events fall through. -/
def handle_waiting_target (dm : Daemon) (code value : Nat) : Daemon × List VOut :=
  if code ∈ MOD_KEYS_ALL then
    if value = 0 ∧ (code = KEY_LEFTSHIFT ∨ code = KEY_RIGHTSHIFT) then
      (dm, [.write EV_KEY code 0, .syn])
    else (dm, [])
  else if value = 1 then
    let bt := build_target_keys dm.pressed_keys code dm.config.trigger_keys_list
    let target_keys := bt.1
    let target_was_shifted := bt.2
    let matched :=
      match seq_lookup dm.config.sequences dm.current_trigger dm.compose_shifted
              dm.current_compose target_keys with
      | some s => some s
      | none =>
          if target_was_shifted then
            seq_lookup dm.config.sequences dm.current_trigger dm.compose_shifted
              dm.current_compose
              (target_keys.filter (fun k => k ≠ KEY_LEFTSHIFT ∧ k ≠ KEY_RIGHTSHIFT))
          else none
    match matched with
    | some s =>
        (cancel_compose dm, emit_output_trace dm.xdotool_available s.output target_was_shifted)
    | none => (cancel_compose dm, replay_trace dm code value)
  else (dm, [.write EV_KEY code value, .syn])

/-- The `pressed_keys` bookkeeping at the top of `handle_event`. -/
def update_pressed (dm : Daemon) (code value : Nat) : Daemon :=
  if value = 1 then { dm with pressed_keys := setAdd dm.pressed_keys code }
  else if value = 0 then { dm with pressed_keys := setDiscard dm.pressed_keys code }
  else dm

/-- `UmlautDaemon.handle_event`: non-key events pass through; `pressed_keys`
is updated first; repeats are dropped outside `IDLE`; an ESC press outside
`IDLE` force-releases; otherwise the per-state branch runs. -/
def handle_event (dm : Daemon) (etype code value now : Nat) : Daemon × List VOut :=
  if etype ≠ EV_KEY then (dm, [.write etype code value])
  else
    let dm := update_pressed dm code value
    if value = 2 ∧ dm.state ≠ .IDLE then (dm, [])
    else if code = KEY_ESC ∧ value = 1 ∧ dm.state ≠ .IDLE then
      force_release_all dm
    else
      match dm.state with
      | .IDLE => handle_idle dm code value now
      | .TRIGGER_PRESSED => handle_trigger_pressed dm code value
      | .COMPOSE_PRESSED => handle_compose_pressed dm code value now
      | .WAITING_TARGET => handle_waiting_target dm code value

/-! ## Device discovery filters -/

/-- Per-device capabilities as the filters read them: the key list when
`EV_KEY` is advertised, whether `EV_REL` is advertised, and the axis list
when `EV_ABS` is advertised. -/
structure DevCaps where
  ev_key : Option (List Nat)
  ev_rel : Bool
  ev_abs : Option (List Nat)

/-- `len(set(keys) & ref)`: how many members of the (duplicate-free)
reference list occur among `keys`. -/
def countMatches (keys : List Nat) : List Nat → Nat
  | [] => 0
  | r :: rest => (if r ∈ keys then 1 else 0) + countMatches keys rest

/-- `REAL_KEYBOARD_KEYS` of `find_keyboard_devices`
(A, B, C, D, E, Space, Enter, Backspace, LeftShift, LeftCtrl). -/
def REAL_KEYBOARD_KEYS : List Nat := [30, 48, 46, 32, 18, 57, 28, 14, 42, 29]

/-- `REAL_KEYS` of `_check_new_devices`
(A, Space, Enter, Backspace, LeftShift, LeftCtrl). -/
def HOTPLUG_REAL_KEYS : List Nat := [30, 57, 28, 14, 42, 29]

/-- The startup discovery filter of `UmlautDaemon.find_keyboard_devices`:
skip the daemon's own virtual device, require key events, reject relative
axes, absolute X/Y or multitouch axes, gamepad buttons (when `EV_ABS` is
present), mouse buttons, and fewer than 8 of the 10 reference keys. -/
def find_keyboard_filter (name : String) (caps : DevCaps) : Bool :=
  if name == "umlaut-virtual-keyboard" then false
  else
    match caps.ev_key with
    | none => false
    | some keys =>
        if caps.ev_rel then false
        else
          let absReject : Bool :=
            match caps.ev_abs with
            | none => false
            | some axes =>
                if 0 ∈ axes ∨ 1 ∈ axes then true
                else if 53 ∈ axes then true
                else if keys.any (fun k => k ∈ [304, 305, 307, 308]) then true
                else false
          if absReject then false
          else if keys.any (fun k => k ∈ [272, 273, 274]) then false
          else if countMatches keys REAL_KEYBOARD_KEYS < 8 then false
          else true

/-- The hotplug admission test of `UmlautDaemon._check_new_devices`: skip the
virtual device, require `EV_KEY`, and require at least 4 of the 6-key
reference set. -/
def hotplug_filter (name : String) (caps : DevCaps) : Bool :=
  if name == "umlaut-virtual-keyboard" then false
  else
    match caps.ev_key with
    | none => false
    | some keys => decide (countMatches keys HOTPLUG_REAL_KEYS ≥ 4)

/-! ## Daemon construction and reload -/

/-- The compose-key extraction of `UmlautDaemon.__init__`: collect the third
component of every table key of length ≥ 3 (every compiled tuple qualifies). -/
def compose_keys_of (m : List (SeqKey × KeySequence)) : List Nat :=
  m.foldl (fun acc p => setAdd acc p.1.2.2.1) []

/-- `UmlautDaemon.__init__`: run `UmlautConfig()` (whose constructor calls
`load_config`; a raised exception aborts construction), copy `timeout_ms`,
precompute `valid_compose_keys`, and reset the state machine. -/
def init_daemon (d : Disk) : Except PyExc Daemon :=
  match load_config initialConfig d with
  | (_, some e) => .error e
  | (c, none) =>
      .ok { config := c, timeout_ms := c.timeout_ms,
            valid_compose_keys := compose_keys_of c.sequences,
            xdotool_available := false,
            state := .IDLE, pressed_keys := [],
            current_trigger := none, current_compose := none,
            compose_shifted := false, compose_start_time := 0, trigger_start_time := 0 }

/-- `UmlautDaemon.reload_config`: call `self.config.load_config()` (which
first clears the tables in place) inside `try … except Exception`.  On
success run `force_release_all`; an ordinary exception is caught and logged
(the daemon keeps running with the *mutated* config object); a `SystemExit`
escapes the handler.  `valid_compose_keys` and the daemon's `timeout_ms`
copy are not recomputed. -/
def reload_config (dm : Daemon) (d : Disk) : Daemon × List VOut × Option PyExc :=
  match load_config dm.config d with
  | (c, none) =>
      let dm := { dm with config := c }
      let fr := force_release_all dm
      (fr.1, fr.2, none)
  | (c, some .systemExit) => ({ dm with config := c }, [], some .systemExit)
  | (c, some _) => ({ dm with config := c }, [], none)

/-! ## Reachability -/

/-- One step of the daemon: an input event, a timeout poll, a signal-handler
force release, or a configuration reload. -/
inductive Step : Daemon → Daemon → Prop where
  | handle (dm : Daemon) (etype code value now : Nat) :
      Step dm (handle_event dm etype code value now).1
  | timeout (dm : Daemon) (now : Nat) :
      Step dm (check_timeout dm now).1
  | forceRelease (dm : Daemon) :
      Step dm (force_release_all dm).1
  | reload (dm : Daemon) (d : Disk) :
      Step dm (reload_config dm d).1

/-- Daemon states reachable from a successful `__init__` through any
sequence of steps. -/
inductive Reachable : Daemon → Prop where
  | init (d : Disk) (dm : Daemon) : init_daemon d = .ok dm → Reachable dm
  | step {dm dm' : Daemon} : Reachable dm → Step dm dm' → Reachable dm'

/-- Whenever the machine is in IDLE, the transient compose fields are reset. -/
def IdleReset (dm : Daemon) : Prop :=
  dm.state = .IDLE →
    dm.current_trigger = none ∧ dm.current_compose = none ∧
    dm.compose_shifted = false ∧ dm.trigger_start_time = 0 ∧ dm.compose_start_time = 0

/-! ## Specification-side comparison function -/

/-- The upper-casing the specification describes for shifted string outputs
("locale-independent ASCII upper-casing; non-ASCII characters retain case"):
`a..z` map to `A..Z`, every other code point is unchanged.  Stated from the
spec's words, to compare against `emit_output_text`. -/
def specAsciiUpper (s : String) : String := String.mk (s.data.map Char.toUpper)

/-! ## Concrete inputs used by the theorems -/

/-- Settings + one German sequence file `de` mapping `Alt ; a → "ä"`. -/
def exDisk1 : Disk :=
  { settings := .content (.obj [("trigger_key", .str "KEY_LEFTALT"),
                                ("enabled_sequences", .list [.str "de"])]),
    seqFiles := [("de", some (.obj [("sequences",
       .obj [(";", .obj [("a", .str "ä")])])]))] }

/-- The same settings but the sequence file now uses compose key `,`. -/
def exDisk2 : Disk :=
  { settings := .content (.obj [("trigger_key", .str "KEY_LEFTALT"),
                                ("enabled_sequences", .list [.str "de"])]),
    seqFiles := [("de", some (.obj [("sequences",
       .obj [(",", .obj [("a", .str "ä")])])]))] }

/-- A disk whose settings file has disappeared. -/
def exDiskMissing : Disk := { settings := .missing, seqFiles := [] }

/-- The compiled entry `(LeftAlt, unshifted, ';', [a]) → "ä"`. -/
def exKS : KeySequence :=
  { modifier_keys := [56], compose_key := 39, compose_shifted := false,
    target_keys := [30], output := .string "ä" }

/-- The configuration `load_config` builds from `exDisk1`. -/
def exConfig : UmlautConfig :=
  { sequences := [((56, false, 39, [30]), exKS)],
    trigger_keys_list := [56], passthrough_keys := [], timeout_ms := 1000,
    log_level := "INFO" }

/-- The daemon `__init__` builds from `exDisk1`. -/
def exDaemon0 : Daemon :=
  { config := exConfig,
    timeout_ms := 1000, valid_compose_keys := [39], xdotool_available := false,
    state := .IDLE, pressed_keys := [],
    current_trigger := none, current_compose := none,
    compose_shifted := false, compose_start_time := 0, trigger_start_time := 0 }

/-- That daemon in `COMPOSE_PRESSED` (Alt and `;` held together with LeftShift). -/
def exDaemonCompose : Daemon :=
  { exDaemon0 with state := .COMPOSE_PRESSED, pressed_keys := [42, 39, 56],
                   current_trigger := some 56, current_compose := some 39 }

/-- That daemon in `WAITING_TARGET` (trigger and compose released). -/
def exDaemonWaiting : Daemon :=
  { exDaemon0 with state := .WAITING_TARGET, pressed_keys := [],
                   current_trigger := some 56, current_compose := some 39 }

/-- A 10,001-character output string. -/
def exLongStr : String := String.mk (List.replicate 10001 'x')

/-- Capabilities of a stripped-down key device: only A, Space, Enter and
Backspace. -/
def exMiniCaps : DevCaps := { ev_key := some [30, 57, 28, 14], ev_rel := false, ev_abs := none }

/-- Capabilities of a full keyboard (all ten reference keys, nothing else). -/
def exFullCaps : DevCaps :=
  { ev_key := some REAL_KEYBOARD_KEYS, ev_rel := false, ev_abs := none }

/-! ## Theorems -/

/-- C1: "If an error occurs during configuration reload (reload_config), the
previously loaded configuration — trigger keys, passthrough keys, and the
compiled sequence table — remains in effect and the daemon continues running
with it."  The code contradicts this: `load_config` clears the tables of the
live config object *in place* before reading the settings file, and the
`SystemExit` raised by `_fatal_error` (settings file missing) escapes
`reload_config`'s `except Exception`.  Evaluated here: a daemon loaded from
`exDisk1` (one sequence, one trigger key) reloads against a disk whose
settings file is missing; the exception propagates (the daemon does not keep
running) and the sequence table and trigger list have been emptied. -/
theorem C1_reload_error_discards_previous_config :
    init_daemon exDisk1 = .ok exDaemon0 ∧
    exDaemon0.config.sequences.length = 1 ∧
    exDaemon0.config.trigger_keys_list = [56] ∧
    (reload_config exDaemon0 exDiskMissing).2.2 = some .systemExit ∧
    (reload_config exDaemon0 exDiskMissing).1.config.sequences = [] ∧
    (reload_config exDaemon0 exDiskMissing).1.config.trigger_keys_list = [] := by
  refine ⟨rfl, rfl, rfl, rfl, rfl, rfl⟩

/-- C2: "In every reachable daemon state, including immediately after a
successful configuration reload, valid_compose_keys equals exactly the set of
compose key codes { t[2] | t in sequence_table }."  The code contradicts
this: `reload_config` rebuilds `self.config` but never recomputes
`self.valid_compose_keys` (it is computed once in `__init__`).  Evaluated
here: after a *successful* reload that moves the only sequence from compose
key `;` (39) to `,` (51), `valid_compose_keys` is still `{39}` while the
table's compose keys are `{51}`. -/
theorem C2_reload_leaves_valid_compose_keys_stale :
    init_daemon exDisk1 = .ok exDaemon0 ∧
    exDaemon0.valid_compose_keys = compose_keys_of exDaemon0.config.sequences ∧
    (reload_config exDaemon0 exDisk2).2.2 = none ∧
    (reload_config exDaemon0 exDisk2).1.valid_compose_keys = [39] ∧
    compose_keys_of (reload_config exDaemon0 exDisk2).1.config.sequences = [51] ∧
    (39 : Nat) ∉ compose_keys_of (reload_config exDaemon0 exDisk2).1.config.sequences := by
  refine ⟨rfl, rfl, rfl, rfl, rfl, by decide⟩

/-- C3 fails on the code: a 10,001-character output string *is* accepted by
`_parse_output` when supplied as an object's `string` field or as a string
element of a sequence list — only the plain-string form is length-checked. -/
theorem C3_counterexample :
    exLongStr.length = 10001 ∧
    parse_output (.obj [("string", .str exLongStr)]) = .ok (.string exLongStr) ∧
    parse_output (.list [.str exLongStr]) = .ok (.sequence [.string exLongStr]) := by
  refine ⟨?_, rfl, ?_⟩
  · show (List.replicate 10001 'x').length = 10001
    rw [List.length_replicate]
  · have h : strStarts exLongStr "KEY_" = false := by decide
    simp [parse_output, parse_output_items, h]

/-- C3 amended: only the plain JSON-string form of an output definition is
length-checked by `_parse_output` (length 10,000 loads, length 10,001 raises
`ValueError`); a string supplied through an object's `string` field or as a
string element of a sequence list is stored without any length check, so
those forms can place payloads longer than 10,000 characters into the
compiled sequence table. -/
theorem C3_only_plain_string_form_is_length_checked :
    (∀ s : String, s.length ≤ 10000 → parse_output (.str s) = .ok (.string s)) ∧
    (∀ s : String, s.length > 10000 → parse_output (.str s) = .error .valueError) ∧
    (∀ s : String, parse_output (.obj [("string", .str s)]) = .ok (.string s)) ∧
    (∀ s : String, strStarts s "KEY_" = false →
      parse_output (.list [.str s]) = .ok (.sequence [.string s])) := by
  refine ⟨?_, ?_, ?_, ?_⟩
  · intro s h
    simp [parse_output, Nat.not_lt.mpr h]
  · intro s h
    simp [parse_output, h]
  · intro s
    rfl
  · intro s h
    simp [parse_output, parse_output_items, h]

/-- C3 witness: the amended statement evaluated at concrete strings (a
two-character string loads as a plain string; `exLongStr` has 10,001
characters and is rejected in plain form yet accepted in object form). -/
theorem C3_witness :
    parse_output (.str "ab") = .ok (.string "ab") ∧
    parse_output (.str exLongStr) = .error .valueError ∧
    parse_output (.list [.str "ab"]) = .ok (.sequence [.string "ab"]) := by
  refine ⟨C3_only_plain_string_form_is_length_checked.1 "ab" (by decide),
          C3_only_plain_string_form_is_length_checked.2.1 exLongStr ?_,
          C3_only_plain_string_form_is_length_checked.2.2.2 "ab" (by decide)⟩
  show (List.replicate 10001 'x').length > 10000
  rw [List.length_replicate]
  omega

/-- C4: "While the state machine is in COMPOSE_PRESSED, every modifier-key
event causes no state change, and the only emission it produces on the
virtual device is a Shift release forwarded exactly once; modifier presses
produce no virtual-device event."  The code contradicts its own
modifier-ignore comment: the ignore block lacks a `return`, so a LeftShift
release is written a *second* time by the final pass-through, and a modifier
press (here LeftCtrl) is forwarded by the same pass-through.  Evaluated on
`exDaemonCompose` (in `COMPOSE_PRESSED` with Alt, `;` and LeftShift held). -/
theorem C4_compose_pressed_modifiers_leak_through :
    (handle_event exDaemonCompose EV_KEY KEY_LEFTSHIFT 0 0).2 =
      [.write EV_KEY KEY_LEFTSHIFT 0, .syn, .write EV_KEY KEY_LEFTSHIFT 0, .syn] ∧
    (handle_event exDaemonCompose EV_KEY KEY_LEFTSHIFT 0 0).1.state = .COMPOSE_PRESSED ∧
    (handle_event exDaemonCompose EV_KEY KEY_LEFTCTRL 1 0).2 =
      [.write EV_KEY KEY_LEFTCTRL 1, .syn] ∧
    (handle_event exDaemonCompose EV_KEY KEY_LEFTCTRL 1 0).1.state = .COMPOSE_PRESSED := by
  refine ⟨rfl, rfl, rfl, rfl⟩

/-- C5 fails on the code: with LeftShift *and* LeftCtrl physically held when
target `a` (30) arrives, `handle_event` builds the target part
`[LeftCtrl, LeftShift, 30]` — each held modifier is *inserted at position 0
after* Shift, so Ctrl ends up before Shift, not the claimed
`[LeftShift, LeftCtrl, 30]`. -/
theorem C5_counterexample :
    build_target_keys [KEY_LEFTSHIFT, KEY_LEFTCTRL] KEY_A [KEY_LEFTALT] =
      ([KEY_LEFTCTRL, KEY_LEFTSHIFT, KEY_A], true) ∧
    ([KEY_LEFTCTRL, KEY_LEFTSHIFT, KEY_A] : List Nat) ≠
      [KEY_LEFTSHIFT, KEY_LEFTCTRL, KEY_A] := by
  refine ⟨rfl, by decide⟩

/-- C5 amended: the target part of the lookup tuple is built by prepending
LeftShift, then LeftCtrl, then LeftAlt (each only when held, Alt only when
`kc` is not a trigger key), so the held modifiers appear before `kc` in the
order Alt, Ctrl, Shift — the *reverse* of the claimed canonical order; with
Shift and Ctrl both held the target part is `[LeftCtrl, LeftShift, kc]`. -/
theorem C5_target_modifier_order_is_alt_ctrl_shift
    (pressed : List Nat) (kc : Nat) (trigs : List Nat) :
    build_target_keys pressed kc trigs =
      ((if (KEY_LEFTALT ∈ pressed ∨ KEY_RIGHTALT ∈ pressed) ∧ kc ∉ trigs
          then [KEY_LEFTALT] else []) ++
       (if KEY_LEFTCTRL ∈ pressed ∨ KEY_RIGHTCTRL ∈ pressed
          then [KEY_LEFTCTRL] else []) ++
       (if KEY_LEFTSHIFT ∈ pressed ∨ KEY_RIGHTSHIFT ∈ pressed
          then [KEY_LEFTSHIFT] else []) ++
       [kc],
       decide (KEY_LEFTSHIFT ∈ pressed ∨ KEY_RIGHTSHIFT ∈ pressed)) := by
  unfold build_target_keys
  by_cases hs : KEY_LEFTSHIFT ∈ pressed ∨ KEY_RIGHTSHIFT ∈ pressed <;>
    by_cases hc : KEY_LEFTCTRL ∈ pressed ∨ KEY_RIGHTCTRL ∈ pressed <;>
      by_cases ha : (KEY_LEFTALT ∈ pressed ∨ KEY_RIGHTALT ∈ pressed) ∧ kc ∉ trigs <;>
        simp [hs, hc, ha]

/-- C6 fails on the code: `emit_output` upper-cases with Python's Unicode
`str.upper()`, which does *not* leave non-ASCII characters unchanged — the
configured string `"ä"` is emitted as `"Ä"` (not the claim's `"ä"`), and
`"ß"` becomes `"SS"`, changing the length. -/
theorem C6_counterexample :
    emit_output_text "ä" true = "Ä" ∧
    specAsciiUpper "ä" = "ä" ∧
    emit_output_text "ä" true ≠ specAsciiUpper "ä" ∧
    emit_output_text "ß" true = "SS" ∧
    (emit_output_text "ß" true).length = 2 ∧ ("ß" : String).length = 1 := by
  refine ⟨rfl, rfl, by decide, rfl, rfl, rfl⟩

/-- On ASCII characters, `pyCharUpper` is single-character ASCII upper-casing. -/
theorem pyCharUpper_ascii_flatten (l : List Char) (h : ∀ c ∈ l, c.toNat ≤ 127) :
    (l.map pyCharUpper).flatten = l.map Char.toUpper := by
  induction l with
  | nil => rfl
  | cons c cs ih =>
      have hc : c.toNat ≤ 127 := h c (by simp)
      have hcs := ih (fun x hx => h x (by simp [hx]))
      simp [pyCharUpper, hc, hcs]

/-- C6 amended: with `target_was_shifted` true the emitted text is the
configured string passed through full Unicode `str.upper()`: on strings of
ASCII characters this coincides with the claimed ASCII upper-casing, but
non-ASCII lower-case letters are upper-cased too (`"ä"` → `"Ä"`) and the
length can change (`"ß"` → `"SS"`). -/
theorem C6_string_output_uses_unicode_upper :
    (∀ s : String, emit_output_text s true = pyStrUpper s) ∧
    (∀ s : String, (∀ c ∈ s.data, c.toNat ≤ 127) →
        emit_output_text s true = specAsciiUpper s) ∧
    emit_output_text "ä" true = "Ä" ∧
    emit_output_text "ß" true = "SS" := by
  refine ⟨fun s => rfl, ?_, rfl, rfl⟩
  intro s h
  show pyStrUpper s = specAsciiUpper s
  unfold pyStrUpper specAsciiUpper
  congr 1
  exact pyCharUpper_ascii_flatten s.data h

/-- C6 witness: the ASCII conjunct applied at the concrete string "abc!". -/
theorem C6_witness :
    (∀ c ∈ ("abc!" : String).data, c.toNat ≤ 127) ∧
    emit_output_text "abc!" true = specAsciiUpper "abc!" :=
  ⟨by decide, C6_string_output_uses_unicode_upper.2.1 "abc!" (by decide)⟩

/-- C9 fails on the code: the hotplug admission test in `_check_new_devices`
is *not* the startup discovery filter — a device advertising only
{A, Space, Enter, Backspace} is admitted on hotplug (4 ≥ 4 of its 6-key
reference set) but rejected at startup (4 < 8 of the 10-key reference set);
the hotplug path also skips the relative-axis / absolute-axis / mouse-button
checks entirely. -/
theorem C9_counterexample :
    hotplug_filter "usb kbd" exMiniCaps = true ∧
    find_keyboard_filter "usb kbd" exMiniCaps = false := by
  refine ⟨rfl, rfl⟩

/-- Scoring at least 8 of the 10-key startup reference set forces at least 4
of the 6-key hotplug reference set (the hotplug set is the startup set minus
B, C, D, E). -/
theorem countMatches_hotplug_of_startup (keys : List Nat)
    (h : countMatches keys REAL_KEYBOARD_KEYS ≥ 8) :
    countMatches keys HOTPLUG_REAL_KEYS ≥ 4 := by
  simp only [countMatches, REAL_KEYBOARD_KEYS, HOTPLUG_REAL_KEYS] at h ⊢
  have h48 : (if 48 ∈ keys then (1 : Nat) else 0) ≤ 1 := by split <;> omega
  have h46 : (if 46 ∈ keys then (1 : Nat) else 0) ≤ 1 := by split <;> omega
  have h32 : (if 32 ∈ keys then (1 : Nat) else 0) ≤ 1 := by split <;> omega
  have h18 : (if 18 ∈ keys then (1 : Nat) else 0) ≤ 1 := by split <;> omega
  omega

/-- C9 amended: the hotplug admission predicate of `_check_new_devices` is
strictly weaker than the startup discovery filter, not equal to it: every
device the startup filter accepts is also admitted on hotplug (it skips the
virtual-device name, has key capabilities, and ≥ 8 of 10 reference keys
forces ≥ 4 of the hotplug 6-key subset), but the converse fails — hotplug
performs none of the relative-axis, absolute-axis, gamepad- or mouse-button
checks and uses the weaker key threshold, so the converse implication fails
on a device advertising only four of the reference keys. -/
theorem C9_hotplug_admission_is_weaker (name : String) (caps : DevCaps)
    (h : find_keyboard_filter name caps = true) :
    hotplug_filter name caps = true := by
  unfold find_keyboard_filter at h
  unfold hotplug_filter
  by_cases hn : (name == "umlaut-virtual-keyboard") = true
  · simp [hn] at h
  · simp only [eq_false_of_ne_true (fun hx => hn hx), Bool.false_eq_true, if_false] at h ⊢
    cases hk : caps.ev_key with
    | none => rw [hk] at h; exact absurd h Bool.false_ne_true
    | some keys =>
        rw [hk] at h
        dsimp only at h ⊢
        by_cases hrel : caps.ev_rel = true
        · rw [if_pos hrel] at h; exact absurd h Bool.false_ne_true
        · rw [if_neg hrel] at h
          split_ifs at h
          all_goals
            first
            | exact absurd h Bool.false_ne_true
            | (rename_i hC
               simp [countMatches_hotplug_of_startup keys (Nat.not_lt.mp hC)])

/-- C9 witness: the weaker-filter implication applied to a full keyboard
(which the startup filter accepts). -/
theorem C9_witness : hotplug_filter "AT Keyboard" exFullCaps = true :=
  C9_hotplug_admission_is_weaker "AT Keyboard" exFullCaps rfl

/-- An ESC press in any non-IDLE state dispatches to `force_release_all`. -/
theorem handle_event_esc (dm : Daemon) (now : Nat) (h : dm.state ≠ .IDLE) :
    handle_event dm EV_KEY KEY_ESC 1 now =
      force_release_all (update_pressed dm KEY_ESC 1) := by
  have hst : (update_pressed dm KEY_ESC 1).state = dm.state := by
    simp [update_pressed, setAdd]
  unfold handle_event
  rw [if_neg (by simp [EV_KEY])]
  rw [if_neg (by simp)]
  rw [if_pos ⟨rfl, rfl, by rw [hst]; exact h⟩]

/-- C8: an ESC press received in any non-IDLE state emits release events for
`current_trigger` and `current_compose` (each when set and non-zero, which
holds in every reachable non-IDLE state) and both Shift keys, resets the
machine to IDLE without forwarding the ESC press, so the next event is
processed in IDLE. -/
theorem C8_esc_force_releases_and_resets (dm : Daemon) (now : Nat)
    (h : dm.state ≠ .IDLE) :
    (handle_event dm EV_KEY KEY_ESC 1 now).2 =
      (if optTruthy dm.current_trigger then wOpt dm.current_trigger 0 else []) ++
      (if optTruthy dm.current_compose then wOpt dm.current_compose 0 else []) ++
      [.write EV_KEY KEY_LEFTSHIFT 0, .syn, .write EV_KEY KEY_RIGHTSHIFT 0, .syn] ∧
    (handle_event dm EV_KEY KEY_ESC 1 now).1.state = .IDLE ∧
    (handle_event dm EV_KEY KEY_ESC 1 now).1.current_trigger = none ∧
    (handle_event dm EV_KEY KEY_ESC 1 now).1.current_compose = none ∧
    VOut.write EV_KEY KEY_ESC 1 ∉ (handle_event dm EV_KEY KEY_ESC 1 now).2 := by
  rw [handle_event_esc dm now h]
  refine ⟨?_, rfl, rfl, rfl, ?_⟩
  · simp [force_release_all, update_pressed]
  · simp only [force_release_all, update_pressed]
    rcases dm.current_trigger with _ | t <;> rcases dm.current_compose with _ | c <;>
      simp [wOpt, optTruthy]

/-- C8 witness: the theorem applied to the concrete daemon in
`COMPOSE_PRESSED` with trigger LeftAlt (56) and compose `;` (39). -/
theorem C8_witness :
    (handle_event exDaemonCompose EV_KEY KEY_ESC 1 0).2 =
      [.write EV_KEY 56 0, .syn, .write EV_KEY 39 0, .syn,
       .write EV_KEY KEY_LEFTSHIFT 0, .syn, .write EV_KEY KEY_RIGHTSHIFT 0, .syn] ∧
    (handle_event exDaemonCompose EV_KEY KEY_ESC 1 0).1.state = .IDLE := by
  have h := C8_esc_force_releases_and_resets exDaemonCompose 0 (by decide)
  exact ⟨h.1, h.2.1⟩

/-- C7: a target key press in `WAITING_TARGET` (a non-modifier, non-ESC key,
with trigger and compose recorded) that matches no sequence — neither the
direct lookup nor the unshifted-fallback lookup — replays exactly: trigger
press+release, then (when `compose_shifted`) LeftShift press, compose
press+release, (when `compose_shifted`) LeftShift release, then the physical
target key press, and the machine resets to IDLE. -/
theorem C7_no_match_replays_and_resets (dm : Daemon) (code now t c : Nat)
    (hs : dm.state = .WAITING_TARGET)
    (ht : dm.current_trigger = some t)
    (hc : dm.current_compose = some c)
    (hmod : code ∉ MOD_KEYS_ALL)
    (hesc : code ≠ KEY_ESC)
    (hm1 : seq_lookup dm.config.sequences (some t) dm.compose_shifted (some c)
        (build_target_keys (setAdd dm.pressed_keys code) code
          dm.config.trigger_keys_list).1 = none)
    (hm2 : seq_lookup dm.config.sequences (some t) dm.compose_shifted (some c)
        ((build_target_keys (setAdd dm.pressed_keys code) code
            dm.config.trigger_keys_list).1.filter
          (fun k => k ≠ KEY_LEFTSHIFT ∧ k ≠ KEY_RIGHTSHIFT)) = none) :
    (handle_event dm EV_KEY code 1 now).2 =
      [.write EV_KEY t 1, .syn, .write EV_KEY t 0, .syn] ++
      (if dm.compose_shifted then [.write EV_KEY KEY_LEFTSHIFT 1, .syn] else []) ++
      [.write EV_KEY c 1, .syn, .write EV_KEY c 0, .syn] ++
      (if dm.compose_shifted then [.write EV_KEY KEY_LEFTSHIFT 0, .syn] else []) ++
      [.write EV_KEY code 1, .syn] ∧
    (handle_event dm EV_KEY code 1 now).1.state = .IDLE ∧
    (handle_event dm EV_KEY code 1 now).1.current_trigger = none ∧
    (handle_event dm EV_KEY code 1 now).1.current_compose = none := by
  have hup : update_pressed dm code 1 =
      { dm with pressed_keys := setAdd dm.pressed_keys code } := by
    simp [update_pressed]
  have hdisp : handle_event dm EV_KEY code 1 now =
      handle_waiting_target (update_pressed dm code 1) code 1 := by
    unfold handle_event
    rw [if_neg (by simp [EV_KEY])]
    rw [if_neg (by simp)]
    rw [if_neg (by intro hx; exact hesc hx.1)]
    rw [hup, hs]
  rw [hdisp, hup]
  unfold handle_waiting_target
  rw [if_neg hmod]
  rw [if_pos rfl]
  dsimp only
  rw [ht, hc, hm1, hm2, ite_self]
  refine ⟨?_, rfl, rfl, rfl⟩
  simp [replay_trace, wOpt, ht, hc]

/-- C7 witness: the theorem applied to the concrete daemon in
`WAITING_TARGET` (trigger 56, compose 39, unshifted) receiving the unmapped
target `q` (16). -/
theorem C7_witness :
    (handle_event exDaemonWaiting EV_KEY 16 1 0).2 =
      [.write EV_KEY 56 1, .syn, .write EV_KEY 56 0, .syn,
       .write EV_KEY 39 1, .syn, .write EV_KEY 39 0, .syn,
       .write EV_KEY 16 1, .syn] ∧
    (handle_event exDaemonWaiting EV_KEY 16 1 0).1.state = .IDLE := by
  have h := C7_no_match_replays_and_resets exDaemonWaiting 16 0 56 39
    rfl rfl rfl (by decide) (by decide) rfl rfl
  refine ⟨?_, h.2.1⟩
  rw [h.1]
  rfl

/-! ## The IDLE-reset invariant (C10) -/

theorem idleReset_cancel (dm : Daemon) : IdleReset (cancel_compose dm) := by
  intro _
  exact ⟨rfl, rfl, rfl, rfl, rfl⟩

theorem idleReset_config (dm : Daemon) (c : UmlautConfig) (h : IdleReset dm) :
    IdleReset { dm with config := c } := h

theorem idleReset_pressed (dm : Daemon) (p : List Nat) (h : IdleReset dm) :
    IdleReset { dm with pressed_keys := p } := h

theorem idleReset_update_pressed (dm : Daemon) (code value : Nat) (h : IdleReset dm) :
    IdleReset (update_pressed dm code value) := by
  unfold update_pressed
  split_ifs <;> exact h

theorem idleReset_force_release (dm : Daemon) : IdleReset (force_release_all dm).1 :=
  idleReset_cancel dm

theorem idleReset_check_timeout (dm : Daemon) (now : Nat) (h : IdleReset dm) :
    IdleReset (check_timeout dm now).1 := by
  unfold check_timeout
  rcases dm.state <;> dsimp only <;> try exact h
  · split_ifs <;> first | exact idleReset_cancel dm | exact h
  · split_ifs <;> first | exact idleReset_cancel dm | exact h

theorem idleReset_reload (dm : Daemon) (d : Disk) :
    (h : IdleReset dm) → IdleReset (reload_config dm d).1 := by
  intro h
  unfold reload_config
  rcases load_config dm.config d with ⟨c, e⟩
  rcases e with _ | e
  · exact idleReset_cancel _
  · rcases e <;> exact h

theorem idleReset_handle_idle (dm : Daemon) (code value now : Nat) (h : IdleReset dm) :
    IdleReset (handle_idle dm code value now).1 := by
  unfold handle_idle
  dsimp only
  split_ifs <;> first | exact h | (intro hx; exact absurd hx (by simp))

theorem idleReset_handle_trigger (dm : Daemon) (code value : Nat) (h : IdleReset dm) :
    IdleReset (handle_trigger_pressed dm code value).1 := by
  unfold handle_trigger_pressed
  split_ifs <;>
    first
    | exact idleReset_cancel dm
    | exact h
    | (intro hx; exact absurd hx (by simp))

theorem idleReset_handle_compose (dm : Daemon) (code value now : Nat) (h : IdleReset dm) :
    IdleReset (handle_compose_pressed dm code value now).1 := by
  unfold handle_compose_pressed
  split_ifs <;> first | exact h | (intro hx; exact absurd hx (by simp))

theorem idleReset_handle_waiting (dm : Daemon) (code value : Nat) (h : IdleReset dm) :
    IdleReset (handle_waiting_target dm code value).1 := by
  unfold handle_waiting_target
  split_ifs <;> try exact h
  dsimp only
  split <;> exact idleReset_cancel dm

theorem idleReset_handle_event (dm : Daemon) (etype code value now : Nat)
    (h : IdleReset dm) : IdleReset (handle_event dm etype code value now).1 := by
  unfold handle_event
  split_ifs with h1
  · exact h
  · dsimp only
    split_ifs with h2 h3
    · exact idleReset_update_pressed dm code value h
    · exact idleReset_force_release _
    · split
      · exact idleReset_handle_idle _ code value now
          (idleReset_update_pressed dm code value h)
      · exact idleReset_handle_trigger _ code value
          (idleReset_update_pressed dm code value h)
      · exact idleReset_handle_compose _ code value now
          (idleReset_update_pressed dm code value h)
      · exact idleReset_handle_waiting _ code value
          (idleReset_update_pressed dm code value h)

theorem idleReset_init (d : Disk) (dm : Daemon) (h : init_daemon d = .ok dm) :
    IdleReset dm := by
  unfold init_daemon at h
  rcases hl : load_config initialConfig d with ⟨c, e⟩
  rw [hl] at h
  rcases e with _ | e
  · rcases h with ⟨⟩
    intro _
    exact ⟨rfl, rfl, rfl, rfl, rfl⟩
  · cases h

theorem idleReset_reachable (dm : Daemon) (h : Reachable dm) : IdleReset dm := by
  induction h with
  | init d dm hinit => exact idleReset_init d dm hinit
  | step hr hstep ih =>
      cases hstep with
      | handle etype code value now => exact idleReset_handle_event _ etype code value now ih
      | timeout now => exact idleReset_check_timeout _ now ih
      | forceRelease => exact idleReset_force_release _
      | reload d => exact idleReset_reload _ d ih

/-- C10: in every reachable daemon state that is in IDLE — initially and
after every transition back to IDLE by any path (match, replay, timeout,
passthrough, ESC/force-release, reload) — the transient fields satisfy
`current_trigger = None`, `current_compose = None`, `compose_shifted =
False`, and both start times are 0 (every transition into IDLE goes through
`cancel_compose`). -/
theorem C10_idle_state_has_reset_transients (dm : Daemon)
    (h : Reachable dm) (hs : dm.state = .IDLE) :
    dm.current_trigger = none ∧ dm.current_compose = none ∧
    dm.compose_shifted = false ∧ dm.trigger_start_time = 0 ∧
    dm.compose_start_time = 0 :=
  idleReset_reachable dm h hs

/-- C10 witness: the freshly constructed daemon from `exDisk1` is in IDLE
with all transient fields reset. -/
theorem C10_witness :
    exDaemon0.current_trigger = none ∧ exDaemon0.current_compose = none ∧
    exDaemon0.compose_shifted = false ∧ exDaemon0.trigger_start_time = 0 ∧
    exDaemon0.compose_start_time = 0 :=
  C10_idle_state_has_reset_transients exDaemon0
    (Reachable.init exDisk1 exDaemon0 rfl) rfl

end Umlaut
